import Mathlib

/-!
Verification of the pessimistic-locking transaction layer described in
`spec.md` of seriousben/rust-playground.  The repository's own source
(`src/rocksdb_transactiondb/src/main.rs`) only *exercises* the transaction
layer: the lock table and transaction lifecycle live in the external
RocksDB `TransactionDB` collaborator, so the core operations below are
modelled from the spec (each such definition says so in its doc comment).
The scenario blocks of `main.rs` (seeding, conflicting puts,
`get_for_update` in both modes, the two-task last-writer-wins scenario,
and the asserted error message text) are embedded concretely and checked
against the model.
-/

abbrev TxnId := Nat
abbrev Key := String
abbrev Value := String
abbrev Partition := String

/-- The `LockKey`: composite of (partition identifier, raw key bytes), per the
spec's data model. -/
structure LockKey where
  partition : Partition
  key : Key
deriving DecidableEq, Repr

/-- The `LockMode`: `Shared` or `Exclusive`, per the spec's data model. -/
inductive LockMode where
  | Shared
  | Exclusive
deriving DecidableEq, Repr

/-- A blocked request in a `LockEntry`'s wait queue:
(transaction id, requested mode, requested-at timestamp). -/
structure Waiter where
  txn : TxnId
  mode : LockMode
  requestedAt : Nat
deriving DecidableEq, Repr

/-- The `LockEntry`: per-key state, a holder set and an ordered wait queue. -/
structure LockEntry where
  holders : List (TxnId × LockMode)
  waitQueue : List Waiter
deriving DecidableEq, Repr

def emptyEntry : LockEntry := ⟨[], []⟩

/-- The mode a transaction currently holds on an entry, if any. -/
def heldMode (holders : List (TxnId × LockMode)) (tid : TxnId) : Option LockMode :=
  (holders.find? (fun h => h.1 == tid)).map (fun h => h.2)

/-- Every holder in the set holds `Shared`. -/
def allShared (holders : List (TxnId × LockMode)) : Bool :=
  holders.all (fun h => h.2 == LockMode.Shared)

/-- A held mode satisfies a requested mode (`Exclusive` covers both;
`Shared` covers only `Shared`). -/
def modeSufficient : LockMode → LockMode → Bool
  | _, LockMode.Shared => true
  | LockMode.Exclusive, LockMode.Exclusive => true
  | LockMode.Shared, LockMode.Exclusive => false

/-- A holder set is compatible with a fresh request of `mode`:
empty, or all-`Shared` and the request is `Shared`. -/
def compatible (holders : List (TxnId × LockMode)) (mode : LockMode) : Bool :=
  holders.isEmpty || (allShared holders && mode == LockMode.Shared)

/-- Append a blocked request at the back of an entry's wait queue. -/
def enqueueWaiter (e : LockEntry) (tid : TxnId) (mode : LockMode) (now : Nat) : LockEntry :=
  { e with waitQueue := e.waitQueue ++ [⟨tid, mode, now⟩] }

/-- Remove a transaction's request from an entry's wait queue. -/
def removeWaiter (e : LockEntry) (tid : TxnId) : LockEntry :=
  { e with waitQueue := e.waitQueue.filter (fun w => !(w.txn == tid)) }

/-- Result of a lock-acquire attempt on one entry: the lock was granted
(with the updated entry), or the wait timed out (with the entry after the
requester has been removed from the wait queue). -/
inductive AcquireResult where
  | granted (e : LockEntry)
  | timeout (e : LockEntry)
deriving DecidableEq, Repr

/-- Modelled from the spec: `Lock Table` `acquire` on a single `LockEntry`
(the lock manager is inside the external RocksDB `TransactionDB`, absent
from `src/`).  If the requester already holds a sufficient mode the call
is a no-op reuse; a sole `Shared` holder requesting `Exclusive` upgrades;
a compatible holder set grants immediately; otherwise the requester waits
and — since no concurrent release can occur in this sequential embedding —
times out, being removed from the wait queue with no lock granted. -/
def acquireEntry (e : LockEntry) (tid : TxnId) (mode : LockMode) (now : Nat) : AcquireResult :=
  match heldMode e.holders tid with
  | some held =>
      if modeSufficient held mode then AcquireResult.granted e
      else if e.holders.length == 1 then
        AcquireResult.granted { e with holders := [(tid, LockMode.Exclusive)] }
      else
        AcquireResult.timeout (removeWaiter (enqueueWaiter e tid mode now) tid)
  | none =>
      if compatible e.holders mode then
        AcquireResult.granted { e with holders := e.holders ++ [(tid, mode)] }
      else
        AcquireResult.timeout (removeWaiter (enqueueWaiter e tid mode now) tid)

/-- Modelled from the spec: after a release, the next compatible waiters
are granted the lock in FIFO arrival order (grant while the queue head is
compatible with the current holder set). -/
def promote (holders : List (TxnId × LockMode)) :
    List Waiter → List (TxnId × LockMode) × List Waiter
  | [] => (holders, [])
  | w :: ws =>
      if compatible holders w.mode then
        promote (holders ++ [(w.txn, w.mode)]) ws
      else
        (holders, w :: ws)

/-- Modelled from the spec: `Lock Table` `release` on one entry — remove
the transaction from the holder set, then grant compatible waiters. -/
def releaseEntry (e : LockEntry) (tid : TxnId) : LockEntry :=
  let holders := e.holders.filter (fun h => !(h.1 == tid))
  let p := promote holders e.waitQueue
  ⟨p.1, p.2⟩

/-- Error kinds of the transaction layer, per the spec's error design. -/
inductive DBError where
  | LockTimeout
  | StorageFailure
  | InvalidTransactionState
deriving DecidableEq, Repr

/-- Display string of an error at the public interface.  The
`LockTimeout` text is the one asserted verbatim in
`src/rocksdb_transactiondb/src/main.rs`. -/
def DBError.display : DBError → String
  | DBError.LockTimeout => "Operation timed out: Timeout waiting to lock key"
  | DBError.StorageFailure => "Storage failure"
  | DBError.InvalidTransactionState => "Invalid transaction state"

/-- The display string of the error of a failed call, if the call failed. -/
def errorMessage {α : Type} : Except DBError α → Option String
  | Except.error e => some e.display
  | Except.ok _ => none

/-- Transaction lifecycle states, per the spec's state machine. -/
inductive TxnState where
  | Active
  | Committed
  | RolledBack
deriving DecidableEq, Repr

/-- Modelled from the spec: the `Transaction` entity — id, held lock keys,
staged write buffer (ordered puts, last-write-wins), lifecycle state. -/
structure Txn where
  id : TxnId
  held : List LockKey
  buffer : List (LockKey × Value)
  state : TxnState
deriving DecidableEq, Repr

/-- Process-wide state: the Storage Engine Adapter's committed contents and
the Lock Table (mapping every `LockKey` to its `LockEntry`). -/
structure DBState where
  storage : LockKey → Option Value
  table : LockKey → LockEntry

/-- The empty database: nothing stored, no locks. -/
def initState : DBState := ⟨fun _ => none, fun _ => emptyEntry⟩

/-- Modelled from the spec: `Lock Table` `acquire` at the table level.
On grant the table is updated; on timeout a `LockTimeout` error is
returned to the caller and no lock is granted. -/
def acquire (s : DBState) (tid : TxnId) (k : LockKey) (mode : LockMode) :
    Except DBError DBState :=
  match acquireEntry (s.table k) tid mode 0 with
  | AcquireResult.granted e =>
      Except.ok { s with table := fun q => if q = k then e else s.table q }
  | AcquireResult.timeout _ => Except.error DBError.LockTimeout

/-- Modelled from the spec: `release_all` — releases every key the
transaction holds. -/
def releaseAll (s : DBState) (tid : TxnId) : DBState :=
  { s with table := fun k => releaseEntry (s.table k) tid }

/-- Lookup in a staged write buffer, last write wins (later writes sit at
the back of the list and take precedence). -/
def bufferLookup : List (LockKey × Value) → LockKey → Option Value
  | [], _ => none
  | (k0, v0) :: rest, k =>
      match bufferLookup rest k with
      | some v => some v
      | none => if k = k0 then some v0 else none

/-- The value a transaction reads: its own uncommitted write buffer layered
over the storage engine's committed contents. -/
def layered (buf : List (LockKey × Value)) (storage : LockKey → Option Value)
    (k : LockKey) : Option Value :=
  match bufferLookup buf k with
  | some v => some v
  | none => storage k

/-- Modelled from the spec: `Transaction.get` — direct unlocked read
through to storage layered with the transaction's own write buffer; never
touches the lock table. -/
def Txn.get (t : Txn) (s : DBState) (k : LockKey) : Except DBError (Option Value) :=
  if t.state = TxnState.Active then
    Except.ok (layered t.buffer s.storage k)
  else
    Except.error DBError.InvalidTransactionState

/-- The lock mode requested by `get_for_update` for a given `exclusive`
flag. -/
def reqMode (exclusive : Bool) : LockMode :=
  if exclusive then LockMode.Exclusive else LockMode.Shared

/-- Record a key in the transaction's held set. -/
def addHeld (held : List LockKey) (k : LockKey) : List LockKey :=
  if k ∈ held then held else k :: held

/-- Modelled from the spec: `Transaction.get_for_update` — acquire a
`Shared` or `Exclusive` lock on the key, then return the same layered
value as `get`. -/
def Txn.getForUpdate (t : Txn) (s : DBState) (k : LockKey) (exclusive : Bool) :
    Except DBError (Option Value × Txn × DBState) :=
  if t.state = TxnState.Active then
    match acquire s t.id k (reqMode exclusive) with
    | Except.error e => Except.error e
    | Except.ok s2 =>
        Except.ok (layered t.buffer s2.storage k,
          { t with held := addHeld t.held k }, s2)
  else
    Except.error DBError.InvalidTransactionState

/-- Modelled from the spec: `Transaction.put` — acquire an `Exclusive`
lock on the key, then stage the write in the buffer; durable storage is
untouched. -/
def Txn.put (t : Txn) (s : DBState) (k : LockKey) (v : Value) :
    Except DBError (Txn × DBState) :=
  if t.state = TxnState.Active then
    match acquire s t.id k LockMode.Exclusive with
    | Except.error e => Except.error e
    | Except.ok s2 =>
        Except.ok ({ t with
                     buffer := t.buffer ++ [(k, v)],
                     held := addHeld t.held k }, s2)
  else
    Except.error DBError.InvalidTransactionState

/-- Apply a staged write buffer to storage in order (the atomic batch). -/
def applyBuffer (storage : LockKey → Option Value) :
    List (LockKey × Value) → (LockKey → Option Value)
  | [] => storage
  | (k0, v0) :: rest =>
      applyBuffer (fun q => if q = k0 then some v0 else storage q) rest

/-- Modelled from the spec: `Transaction.commit` — flush the staged buffer
to storage atomically as a single batch, then `release_all`.  `flushOk`
models whether the external engine's batch write succeeds; on failure the
transaction transitions to `RolledBack`, nothing is applied, the storage
error propagates, and locks are still released.  Committing a finished
transaction is an `InvalidTransactionState` error. -/
def Txn.commit (t : Txn) (s : DBState) (flushOk : Bool) :
    Except DBError Unit × Txn × DBState :=
  if t.state = TxnState.Active then
    if flushOk then
      (Except.ok (), { t with state := TxnState.Committed, buffer := [] },
        releaseAll { s with storage := applyBuffer s.storage t.buffer } t.id)
    else
      (Except.error DBError.StorageFailure,
        { t with state := TxnState.RolledBack, buffer := [] },
        releaseAll s t.id)
  else
    (Except.error DBError.InvalidTransactionState, t, s)

/-- Modelled from the spec: `Transaction.rollback` — discard the buffer and
release all locks without writing; idempotent with destruction. -/
def Txn.rollback (t : Txn) (s : DBState) : Txn × DBState :=
  if t.state = TxnState.Active then
    ({ t with state := TxnState.RolledBack, buffer := [] }, releaseAll s t.id)
  else
    (t, s)

/-- Modelled from the spec: abnormal drop/destruction of a transaction —
all held locks are released regardless of exit path. -/
def Txn.drop (t : Txn) (s : DBState) : DBState :=
  if t.state = TxnState.Active then releaseAll s t.id else s

/-- Modelled from the spec: `Transaction Manager` `begin` — a fresh
transaction with a unique id, no locks, an empty buffer, `Active`. -/
def beginTxn (tid : TxnId) : Txn := ⟨tid, [], [], TxnState.Active⟩

/-- Modelled from the spec: the Transaction Manager's direct unlocked
`get` for non-transactional reads. -/
def dbGet (s : DBState) (k : LockKey) : Option Value := s.storage k

/-- Whether an `Except` computation succeeded. -/
def exceptOk {ε α : Type} : Except ε α → Bool
  | Except.ok _ => true
  | Except.error _ => false

/-! Concrete scenario data from `src/rocksdb_transactiondb/src/main.rs`:
the `User` column family and the keys `user1`, `user2`, `user3`. -/

def user1 : LockKey := ⟨"User", "user1"⟩
def user2 : LockKey := ⟨"User", "user2"⟩
def user3 : LockKey := ⟨"User", "user3"⟩

/-- The seeding transaction of `main.rs` (lines 79-87): put
`user1`/`user2`/`user3` with matching values, then commit. -/
def runSeed : Except DBError DBState := do
  let t0 := beginTxn 0
  let r1 ← t0.put initState user1 "user1"
  let r2 ← r1.1.put r1.2 user2 "user2"
  let r3 ← r2.1.put r2.2 user3 "user3"
  let c := r3.1.commit r3.2 true
  match c.1 with
  | Except.ok _ => Except.ok c.2.2
  | Except.error e => Except.error e

/-- The seeded state (defaults to `initState` if seeding failed; the C2
theorem separately asserts that seeding succeeded). -/
def c2Seeded : DBState :=
  match runSeed with
  | Except.ok s => s
  | Except.error _ => initState

/-- txn1 puts `user1 = "user1-txn1"` (main.rs line 109 / task at 176). -/
def c2Step1 : Except DBError (Txn × DBState) :=
  (beginTxn 1).put c2Seeded user1 "user1-txn1"

def c2T1S1 : Txn × DBState :=
  match c2Step1 with
  | Except.ok r => r
  | Except.error _ => (beginTxn 1, c2Seeded)

/-- txn2's put on the same key before txn1 commits (main.rs line 110). -/
def c2EarlyAttempt : Except DBError (Txn × DBState) :=
  (beginTxn 2).put c2T1S1.2 user1 "user1-txn2"

/-- txn1 commits (main.rs line 186). -/
def c2AfterT1Commit : Except DBError Unit × Txn × DBState :=
  c2T1S1.1.commit c2T1S1.2 true

/-- txn2's fresh attempt after txn1's commit signal (main.rs lines 202-215). -/
def c2Retry : Except DBError (Txn × DBState) :=
  (beginTxn 2).put c2AfterT1Commit.2.2 user1 "user1-txn2"

def c2T2S2 : Txn × DBState :=
  match c2Retry with
  | Except.ok r => r
  | Except.error _ => (beginTxn 2, c2AfterT1Commit.2.2)

/-- txn2 commits (main.rs line 217). -/
def c2Final : Except DBError Unit × Txn × DBState :=
  c2T2S2.1.commit c2T2S2.2 true

/-! Helper lemmas about the lock table operations. -/

theorem heldMode_single_ne (a tid : TxnId) (m : LockMode) (h : tid ≠ a) :
    heldMode [(a, m)] tid = none := by
  have hb : (a == tid) = false := beq_eq_false_iff_ne.mpr (Ne.symm h)
  simp [heldMode, List.find?, hb]

theorem acquireEntry_free (e : LockEntry) (tid : TxnId) (mode : LockMode) (now : Nat)
    (hh : e.holders = []) :
    acquireEntry e tid mode now =
      AcquireResult.granted { e with holders := [(tid, mode)] } := by
  simp [acquireEntry, heldMode, hh, compatible]

theorem acquireEntry_excl_conflict (e : LockEntry) (a tid : TxnId) (mode : LockMode)
    (now : Nat) (hh : e.holders = [(a, LockMode.Exclusive)]) (hne : tid ≠ a) :
    acquireEntry e tid mode now =
      AcquireResult.timeout (removeWaiter (enqueueWaiter e tid mode now) tid) := by
  simp [acquireEntry, hh, heldMode_single_ne a tid _ hne, compatible, allShared]

theorem acquireEntry_shared_put_conflict (e : LockEntry) (a tid : TxnId) (now : Nat)
    (hh : e.holders = [(a, LockMode.Shared)]) (hne : tid ≠ a) :
    acquireEntry e tid LockMode.Exclusive now =
      AcquireResult.timeout (removeWaiter (enqueueWaiter e tid LockMode.Exclusive now) tid) := by
  simp [acquireEntry, hh, heldMode_single_ne a tid _ hne, compatible, allShared]

theorem acquire_free_ok (s : DBState) (tid : TxnId) (k : LockKey) (mode : LockMode)
    (hh : (s.table k).holders = []) :
    acquire s tid k mode =
      Except.ok { s with table := fun q => if q = k then
        { s.table k with holders := [(tid, mode)] } else s.table q } := by
  unfold acquire
  rw [acquireEntry_free (s.table k) tid mode 0 hh]

theorem acquire_excl_conflict (s : DBState) (a tid : TxnId) (k : LockKey) (mode : LockMode)
    (hh : (s.table k).holders = [(a, LockMode.Exclusive)]) (hne : tid ≠ a) :
    acquire s tid k mode = Except.error DBError.LockTimeout := by
  unfold acquire
  rw [acquireEntry_excl_conflict (s.table k) a tid mode 0 hh hne]

theorem acquire_shared_put_conflict (s : DBState) (a tid : TxnId) (k : LockKey)
    (hh : (s.table k).holders = [(a, LockMode.Shared)]) (hne : tid ≠ a) :
    acquire s tid k LockMode.Exclusive = Except.error DBError.LockTimeout := by
  unfold acquire
  rw [acquireEntry_shared_put_conflict (s.table k) a tid 0 hh hne]

theorem put_free (t : Txn) (s : DBState) (k : LockKey) (v : Value)
    (ha : t.state = TxnState.Active) (hh : (s.table k).holders = []) :
    t.put s k v = Except.ok
      ({ t with buffer := t.buffer ++ [(k, v)], held := addHeld t.held k },
       { s with table := fun q => if q = k then
          { s.table k with holders := [(t.id, LockMode.Exclusive)] } else s.table q }) := by
  simp [Txn.put, ha, acquire_free_ok s t.id k LockMode.Exclusive hh]

theorem put_excl_conflict (t : Txn) (s : DBState) (k : LockKey) (v : Value) (a : TxnId)
    (ha : t.state = TxnState.Active) (hh : (s.table k).holders = [(a, LockMode.Exclusive)])
    (hne : t.id ≠ a) :
    t.put s k v = Except.error DBError.LockTimeout := by
  simp [Txn.put, ha, acquire_excl_conflict s a t.id k LockMode.Exclusive hh hne]

theorem put_shared_conflict (t : Txn) (s : DBState) (k : LockKey) (v : Value) (a : TxnId)
    (ha : t.state = TxnState.Active) (hh : (s.table k).holders = [(a, LockMode.Shared)])
    (hne : t.id ≠ a) :
    t.put s k v = Except.error DBError.LockTimeout := by
  simp [Txn.put, ha, acquire_shared_put_conflict s a t.id k hh hne]

theorem gfu_free (t : Txn) (s : DBState) (k : LockKey) (ex : Bool)
    (ha : t.state = TxnState.Active) (hh : (s.table k).holders = []) :
    t.getForUpdate s k ex = Except.ok
      (layered t.buffer s.storage k, { t with held := addHeld t.held k },
       { s with table := fun q => if q = k then
          { s.table k with holders := [(t.id, reqMode ex)] } else s.table q }) := by
  simp [Txn.getForUpdate, ha, acquire_free_ok s t.id k (reqMode ex) hh]

theorem gfu_excl_conflict (t : Txn) (s : DBState) (k : LockKey) (ex : Bool) (a : TxnId)
    (ha : t.state = TxnState.Active) (hh : (s.table k).holders = [(a, LockMode.Exclusive)])
    (hne : t.id ≠ a) :
    t.getForUpdate s k ex = Except.error DBError.LockTimeout := by
  simp [Txn.getForUpdate, ha, acquire_excl_conflict s a t.id k (reqMode ex) hh hne]

theorem releaseEntry_sole (e : LockEntry) (tid : TxnId) (m : LockMode)
    (hh : e.holders = [(tid, m)]) (hq : e.waitQueue = []) :
    releaseEntry e tid = emptyEntry := by
  simp [releaseEntry, hh, hq, promote, emptyEntry]

/-! The holder-set invariant and its preservation. -/

/-- The spec's `LockEntry` invariant: the holder set is empty, or all
holders are `Shared`, or it is exactly one `Exclusive` holder. -/
def goodHolders (holders : List (TxnId × LockMode)) : Prop :=
  holders = [] ∨ (∀ p ∈ holders, p.2 = LockMode.Shared) ∨
    ∃ a, holders = [(a, LockMode.Exclusive)]

theorem goodHolders_single (x : TxnId) (m : LockMode) : goodHolders [(x, m)] := by
  cases m with
  | Shared => exact Or.inr (Or.inl (by simp))
  | Exclusive => exact Or.inr (Or.inr ⟨x, rfl⟩)

theorem allShared_iff (hs : List (TxnId × LockMode)) :
    allShared hs = true ↔ ∀ p ∈ hs, p.2 = LockMode.Shared := by
  simp [allShared]

theorem goodHolders_append (hs : List (TxnId × LockMode)) (tid : TxnId) (mode : LockMode)
    (hc : compatible hs mode = true) (h : goodHolders hs) :
    goodHolders (hs ++ [(tid, mode)]) := by
  have hc2 : hs = [] ∨ (allShared hs = true ∧ mode = LockMode.Shared) := by
    simpa [compatible, List.isEmpty_iff] using hc
  rcases hc2 with rfl | ⟨hall, rfl⟩
  · simpa using goodHolders_single tid mode
  · refine Or.inr (Or.inl ?_)
    intro p hp
    rcases List.mem_append.mp hp with hp2 | hp2
    · exact (allShared_iff hs).mp hall p hp2
    · simp at hp2
      simp [hp2]

theorem promote_good (q : List Waiter) :
    ∀ holders, goodHolders holders → goodHolders (promote holders q).1 := by
  induction q with
  | nil =>
      intro holders h
      simpa [promote] using h
  | cons w ws ih =>
      intro holders h
      by_cases hc : compatible holders w.mode = true
      · rw [promote, if_pos hc]
        exact ih _ (goodHolders_append holders w.txn w.mode hc h)
      · rw [promote, if_neg hc]
        exact h

theorem goodHolders_filter (hs : List (TxnId × LockMode)) (tid : TxnId)
    (h : goodHolders hs) :
    goodHolders (hs.filter (fun p => !(p.1 == tid))) := by
  rcases h with rfl | h | ⟨a, rfl⟩
  · exact Or.inl rfl
  · refine Or.inr (Or.inl ?_)
    intro p hp
    exact h p (List.mem_of_mem_filter hp)
  · by_cases ha : a = tid
    · refine Or.inl ?_
      simp [ha]
    · refine Or.inr (Or.inr ⟨a, ?_⟩)
      simp [ha]

/-! Buffer lemmas. -/

theorem bufferLookup_append_last (buf : List (LockKey × Value)) (k : LockKey) (v : Value) :
    bufferLookup (buf ++ [(k, v)]) k = some v := by
  induction buf with
  | nil => simp [bufferLookup]
  | cons p rest ih =>
      obtain ⟨k0, v0⟩ := p
      simp [bufferLookup, ih]

theorem applyBuffer_eq (buf : List (LockKey × Value)) (storage : LockKey → Option Value)
    (k : LockKey) :
    applyBuffer storage buf k = layered buf storage k := by
  induction buf generalizing storage with
  | nil => simp [applyBuffer, layered, bufferLookup]
  | cons p rest ih =>
      obtain ⟨k0, v0⟩ := p
      rw [applyBuffer, ih]
      cases hbl : bufferLookup rest k with
      | some v => simp [layered, bufferLookup, hbl]
      | none =>
          by_cases hk : k = k0
          · subst hk
            simp [layered, bufferLookup, hbl]
          · simp [layered, bufferLookup, hbl, hk]

/-- C1: While a transaction holds an `Exclusive` lock on a key k (acquired
via `get_for_update` with `exclusive=true` or via `put`), any other
transaction's `put` on k and any other transaction's `get_for_update` on k
(requesting `Shared` or `Exclusive`) returns a `LockTimeout` error rather
than succeeding or silently bypassing the lock. -/
theorem C1_exclusive_lock_blocks_other_txns (ta tb : Txn) (s : DBState) (k : LockKey)
    (v v2 : Value)
    (ha : ta.state = TxnState.Active) (hb : tb.state = TxnState.Active)
    (hfree : (s.table k).holders = []) (hne : tb.id ≠ ta.id) :
    (∃ val ta2 s2, ta.getForUpdate s k true = Except.ok (val, ta2, s2) ∧
        (s2.table k).holders = [(ta.id, LockMode.Exclusive)]) ∧
    (∃ ta2 s2, ta.put s k v = Except.ok (ta2, s2) ∧
        (s2.table k).holders = [(ta.id, LockMode.Exclusive)]) ∧
    (∀ s2 : DBState, (s2.table k).holders = [(ta.id, LockMode.Exclusive)] →
        tb.put s2 k v2 = Except.error DBError.LockTimeout ∧
        tb.getForUpdate s2 k true = Except.error DBError.LockTimeout ∧
        tb.getForUpdate s2 k false = Except.error DBError.LockTimeout) := by
  refine ⟨⟨_, _, _, gfu_free ta s k true ha hfree, by simp [reqMode]⟩,
    ⟨_, _, put_free ta s k v ha hfree, by simp⟩, ?_⟩
  intro s2 hh
  exact ⟨put_excl_conflict tb s2 k v2 ta.id hb hh hne,
    gfu_excl_conflict tb s2 k true ta.id hb hh hne,
    gfu_excl_conflict tb s2 k false ta.id hb hh hne⟩

/-- Witness for C1: transactions 1 and 2 contend on `user1` over the empty
database. -/
theorem C1_witness :
    ((beginTxn 1).state = TxnState.Active ∧ (beginTxn 2).state = TxnState.Active ∧
      (initState.table user1).holders = [] ∧ (beginTxn 2).id ≠ (beginTxn 1).id) ∧
    ((∃ val ta2 s2, (beginTxn 1).getForUpdate initState user1 true = Except.ok (val, ta2, s2) ∧
        (s2.table user1).holders = [((beginTxn 1).id, LockMode.Exclusive)]) ∧
     (∃ ta2 s2, (beginTxn 1).put initState user1 "v1" = Except.ok (ta2, s2) ∧
        (s2.table user1).holders = [((beginTxn 1).id, LockMode.Exclusive)]) ∧
     (∀ s2 : DBState, (s2.table user1).holders = [((beginTxn 1).id, LockMode.Exclusive)] →
        (beginTxn 2).put s2 user1 "v2" = Except.error DBError.LockTimeout ∧
        (beginTxn 2).getForUpdate s2 user1 true = Except.error DBError.LockTimeout ∧
        (beginTxn 2).getForUpdate s2 user1 false = Except.error DBError.LockTimeout)) :=
  ⟨⟨rfl, rfl, rfl, by decide⟩,
    C1_exclusive_lock_blocks_other_txns (beginTxn 1) (beginTxn 2) initState user1 "v1" "v2"
      rfl rfl rfl (by decide)⟩

/-- C3: an unlocked `get` on k never blocks and never fails because of
another transaction's lock on k, and never acquires a lock itself: after A
performs an unlocked `get` on k (which leaves the lock table untouched),
B's `put` on k still succeeds, and B's unlocked `get` on k succeeds in
every state, whatever locks are held. -/
theorem C3_unlocked_get_unaffected_by_locks (ta tb : Txn) (s : DBState) (k : LockKey)
    (v : Value)
    (ha : ta.state = TxnState.Active) (hb : tb.state = TxnState.Active)
    (hfree : (s.table k).holders = []) :
    (∃ val, ta.get s k = Except.ok val) ∧
    (∃ r, tb.put s k v = Except.ok r) ∧
    (∀ s2 : DBState, ∃ val, tb.get s2 k = Except.ok val) := by
  refine ⟨⟨layered ta.buffer s.storage k, by simp [Txn.get, ha]⟩,
    ⟨_, put_free tb s k v hb hfree⟩, ?_⟩
  intro s2
  exact ⟨layered tb.buffer s2.storage k, by simp [Txn.get, hb]⟩

/-- Witness for C3: transaction 1 reads `user1` unlocked; transaction 2's
put still succeeds; transaction 2's get succeeds in every state. -/
theorem C3_witness :
    ((beginTxn 1).state = TxnState.Active ∧ (beginTxn 2).state = TxnState.Active ∧
      (initState.table user1).holders = []) ∧
    ((∃ val, (beginTxn 1).get initState user1 = Except.ok val) ∧
     (∃ r, (beginTxn 2).put initState user1 "user1-txn2" = Except.ok r) ∧
     (∀ s2 : DBState, ∃ val, (beginTxn 2).get s2 user1 = Except.ok val)) :=
  ⟨⟨rfl, rfl, rfl⟩,
    C3_unlocked_get_unaffected_by_locks (beginTxn 1) (beginTxn 2) initState user1
      "user1-txn2" rfl rfl rfl⟩

/-- C4: while a transaction holds a `Shared` lock on k (via
`get_for_update` with `exclusive=false`), a concurrent unlocked `get` on k
by another transaction succeeds, but that transaction's `put` on k fails
with `LockTimeout`. -/
theorem C4_shared_lock_blocks_put_not_get (ta tb : Txn) (s : DBState) (k : LockKey)
    (v : Value)
    (ha : ta.state = TxnState.Active) (hb : tb.state = TxnState.Active)
    (hfree : (s.table k).holders = []) (hne : tb.id ≠ ta.id) :
    ∃ val ta2 s2, ta.getForUpdate s k false = Except.ok (val, ta2, s2) ∧
      (s2.table k).holders = [(ta.id, LockMode.Shared)] ∧
      (∃ val2, tb.get s2 k = Except.ok val2) ∧
      tb.put s2 k v = Except.error DBError.LockTimeout := by
  refine ⟨_, _, _, gfu_free ta s k false ha hfree, ?_,
    ⟨layered tb.buffer s.storage k, by simp [Txn.get, hb]⟩, ?_⟩
  · simp [reqMode]
  · exact put_shared_conflict tb _ k v ta.id hb (by simp [reqMode]) hne

/-- Witness for C4: transaction 1 takes a `Shared` lock on `user1`;
transaction 2 can still `get` but its `put` times out. -/
theorem C4_witness :
    ((beginTxn 1).state = TxnState.Active ∧ (beginTxn 2).state = TxnState.Active ∧
      (initState.table user1).holders = [] ∧ (beginTxn 2).id ≠ (beginTxn 1).id) ∧
    (∃ val ta2 s2, (beginTxn 1).getForUpdate initState user1 false = Except.ok (val, ta2, s2) ∧
      (s2.table user1).holders = [((beginTxn 1).id, LockMode.Shared)] ∧
      (∃ val2, (beginTxn 2).get s2 user1 = Except.ok val2) ∧
      (beginTxn 2).put s2 user1 "user1-txn2" = Except.error DBError.LockTimeout) :=
  ⟨⟨rfl, rfl, rfl, by decide⟩,
    C4_shared_lock_blocks_put_not_get (beginTxn 1) (beginTxn 2) initState user1
      "user1-txn2" rfl rfl rfl (by decide)⟩

/-- C2: when two transactions write the same key, the second writer's
`put` observes `LockTimeout` before the first commits; after the first
commits and its locks are released, a fresh attempt by the second
succeeds, and the stored value for the key ends up equal to the second
(later-committing) transaction's value.  The second half embeds the
seeded `main.rs` scenario literally: after seeding `user1`/`user2`/
`user3`, txn1 puts `user1 = "user1-txn1"` and commits, txn2 (waiting for
txn1's commit) puts `user1 = "user1-txn2"` and commits, and the final
stored value of `user1` is `"user1-txn2"`. -/
theorem C2_same_key_second_writer_timeout_then_wins (t1 : Txn) (s : DBState)
    (k : LockKey) (v1 v2 : Value) (b : TxnId)
    (h1 : t1.state = TxnState.Active) (hfree : (s.table k).holders = [])
    (hq : (s.table k).waitQueue = []) (hne : b ≠ t1.id) :
    (∃ t1a s1, t1.put s k v1 = Except.ok (t1a, s1) ∧
      (beginTxn b).put s1 k v2 = Except.error DBError.LockTimeout ∧
      (t1a.commit s1 true).1 = Except.ok () ∧
      (∃ t2a s2, (beginTxn b).put (t1a.commit s1 true).2.2 k v2 = Except.ok (t2a, s2) ∧
        (t2a.commit s2 true).1 = Except.ok () ∧
        dbGet (t2a.commit s2 true).2.2 k = some v2)) ∧
    (exceptOk runSeed = true ∧ exceptOk c2Step1 = true ∧
      c2EarlyAttempt = Except.error DBError.LockTimeout ∧
      c2AfterT1Commit.1 = Except.ok () ∧ exceptOk c2Retry = true ∧
      c2Final.1 = Except.ok () ∧ dbGet c2Final.2.2 user1 = some "user1-txn2") := by
  constructor
  · refine ⟨_, _, put_free t1 s k v1 h1 hfree, ?_, ?_, ?_⟩
    · exact put_excl_conflict (beginTxn b) _ k v2 t1.id rfl (by simp) hne
    · simp [Txn.commit, h1]
    · have hrel : releaseEntry { s.table k with holders := [(t1.id, LockMode.Exclusive)] } t1.id = emptyEntry :=
        releaseEntry_sole _ t1.id LockMode.Exclusive rfl hq
      refine ⟨_, _, put_free (beginTxn b) _ k v2 rfl ?_, ?_, ?_⟩
      · simp [Txn.commit, h1, releaseAll, hrel, emptyEntry]
      · simp [Txn.commit, beginTxn]
      · simp [Txn.commit, beginTxn, releaseAll, dbGet, applyBuffer_eq, layered,
          bufferLookup]
  · exact ⟨rfl, rfl, rfl, rfl, rfl, rfl, rfl⟩

/-- Witness for C2: transactions 1 and 2 write `user1` over the empty
database; values `"a"` and `"b"`. -/
theorem C2_witness :
    ((beginTxn 1).state = TxnState.Active ∧ (initState.table user1).holders = [] ∧
      (initState.table user1).waitQueue = [] ∧ (2 : TxnId) ≠ (beginTxn 1).id) ∧
    ((∃ t1a s1, (beginTxn 1).put initState user1 "a" = Except.ok (t1a, s1) ∧
      (beginTxn 2).put s1 user1 "b" = Except.error DBError.LockTimeout ∧
      (t1a.commit s1 true).1 = Except.ok () ∧
      (∃ t2a s2, (beginTxn 2).put (t1a.commit s1 true).2.2 user1 "b" = Except.ok (t2a, s2) ∧
        (t2a.commit s2 true).1 = Except.ok () ∧
        dbGet (t2a.commit s2 true).2.2 user1 = some "b")) ∧
    (exceptOk runSeed = true ∧ exceptOk c2Step1 = true ∧
      c2EarlyAttempt = Except.error DBError.LockTimeout ∧
      c2AfterT1Commit.1 = Except.ok () ∧ exceptOk c2Retry = true ∧
      c2Final.1 = Except.ok () ∧ dbGet c2Final.2.2 user1 = some "user1-txn2")) :=
  ⟨⟨rfl, rfl, rfl, by decide⟩,
    C2_same_key_second_writer_timeout_then_wins (beginTxn 1) initState user1 "a" "b" 2
      rfl rfl rfl (by decide)⟩

/-- C5: on every exit path — commit (whether or not the flush succeeds),
rollback, or abnormal drop — all locks held by the transaction are
released at destruction, so every key it held becomes immediately
acquirable by a subsequent transaction. -/
theorem C5_locks_released_on_every_exit (t tb : Txn) (s : DBState) (k : LockKey)
    (m : LockMode) (v : Value) (flushOk : Bool)
    (ha : t.state = TxnState.Active) (hb : tb.state = TxnState.Active)
    (hh : (s.table k).holders = [(t.id, m)]) (hq : (s.table k).waitQueue = []) :
    ((t.commit s flushOk).2.2.table k).holders = [] ∧
    ((t.rollback s).2.table k).holders = [] ∧
    ((t.drop s).table k).holders = [] ∧
    (∃ r, tb.put (t.commit s flushOk).2.2 k v = Except.ok r) ∧
    (∃ r, tb.put (t.rollback s).2 k v = Except.ok r) ∧
    (∃ r, tb.put (t.drop s) k v = Except.ok r) := by
  have hrel : releaseEntry (s.table k) t.id = emptyEntry :=
    releaseEntry_sole (s.table k) t.id m hh hq
  have h1 : ((t.commit s flushOk).2.2.table k).holders = [] := by
    cases flushOk <;> simp [Txn.commit, ha, releaseAll, hrel, emptyEntry]
  have h2 : ((t.rollback s).2.table k).holders = [] := by
    simp [Txn.rollback, ha, releaseAll, hrel, emptyEntry]
  have h3 : ((t.drop s).table k).holders = [] := by
    simp [Txn.drop, ha, releaseAll, hrel, emptyEntry]
  exact ⟨h1, h2, h3, ⟨_, put_free tb _ k v hb h1⟩, ⟨_, put_free tb _ k v hb h2⟩,
    ⟨_, put_free tb _ k v hb h3⟩⟩

/-- A concrete state in which transaction `tid` holds `user1` in mode `m`
and no other locks exist. -/
def lockedState (tid : TxnId) (m : LockMode) : DBState :=
  { storage := fun _ => none,
    table := fun q => if q = user1 then ⟨[(tid, m)], []⟩ else emptyEntry }

/-- Witness for C5: transaction 1 holds `user1` exclusively; after each
exit path transaction 2 can immediately lock `user1`. -/
theorem C5_witness :
    ((beginTxn 1).state = TxnState.Active ∧ (beginTxn 2).state = TxnState.Active ∧
      ((lockedState 1 LockMode.Exclusive).table user1).holders =
        [((beginTxn 1).id, LockMode.Exclusive)] ∧
      ((lockedState 1 LockMode.Exclusive).table user1).waitQueue = []) ∧
    ((((beginTxn 1).commit (lockedState 1 LockMode.Exclusive) true).2.2.table user1).holders = [] ∧
     (((beginTxn 1).rollback (lockedState 1 LockMode.Exclusive)).2.table user1).holders = [] ∧
     (((beginTxn 1).drop (lockedState 1 LockMode.Exclusive)).table user1).holders = [] ∧
     (∃ r, (beginTxn 2).put ((beginTxn 1).commit (lockedState 1 LockMode.Exclusive) true).2.2
        user1 "v" = Except.ok r) ∧
     (∃ r, (beginTxn 2).put ((beginTxn 1).rollback (lockedState 1 LockMode.Exclusive)).2
        user1 "v" = Except.ok r) ∧
     (∃ r, (beginTxn 2).put ((beginTxn 1).drop (lockedState 1 LockMode.Exclusive))
        user1 "v" = Except.ok r)) :=
  ⟨⟨rfl, rfl, by simp [lockedState, beginTxn], rfl⟩,
    C5_locks_released_on_every_exit (beginTxn 1) (beginTxn 2)
      (lockedState 1 LockMode.Exclusive) user1 LockMode.Exclusive "v" true rfl rfl
      (by simp [lockedState, beginTxn]) rfl⟩

/-- C6: commit applies the staged write buffer atomically as a single
batch: on success every buffered write is applied (each key's committed
value is the transaction's layered view) and the transaction becomes
`Committed`; on flush failure none of the buffer is applied, the
transaction transitions to `RolledBack`, the storage error propagates,
and locks are still released. -/
theorem C6_commit_atomic_batch (t : Txn) (s : DBState)
    (ha : t.state = TxnState.Active) :
    ((t.commit s true).1 = Except.ok () ∧
      (t.commit s true).2.1.state = TxnState.Committed ∧
      (∀ k, (t.commit s true).2.2.storage k = layered t.buffer s.storage k) ∧
      (∀ k, (t.commit s true).2.2.table k = releaseEntry (s.table k) t.id)) ∧
    ((t.commit s false).1 = Except.error DBError.StorageFailure ∧
      (t.commit s false).2.1.state = TxnState.RolledBack ∧
      (∀ k, (t.commit s false).2.2.storage k = s.storage k) ∧
      (∀ k, (t.commit s false).2.2.table k = releaseEntry (s.table k) t.id)) := by
  simp [Txn.commit, ha, releaseAll, applyBuffer_eq]

/-- Witness for C6: transaction 1 over the empty database. -/
theorem C6_witness :
    (beginTxn 1).state = TxnState.Active ∧
    ((((beginTxn 1).commit initState true).1 = Except.ok () ∧
      ((beginTxn 1).commit initState true).2.1.state = TxnState.Committed ∧
      (∀ k, ((beginTxn 1).commit initState true).2.2.storage k =
        layered (beginTxn 1).buffer initState.storage k) ∧
      (∀ k, ((beginTxn 1).commit initState true).2.2.table k =
        releaseEntry (initState.table k) (beginTxn 1).id)) ∧
     (((beginTxn 1).commit initState false).1 = Except.error DBError.StorageFailure ∧
      ((beginTxn 1).commit initState false).2.1.state = TxnState.RolledBack ∧
      (∀ k, ((beginTxn 1).commit initState false).2.2.storage k = initState.storage k) ∧
      (∀ k, ((beginTxn 1).commit initState false).2.2.table k =
        releaseEntry (initState.table k) (beginTxn 1).id))) :=
  ⟨rfl, C6_commit_atomic_batch (beginTxn 1) initState rfl⟩

/-- C7: an acquire that expires its timeout returns `LockTimeout` to the
caller, its request is removed from the wait queue and no lock (not even
partial) is granted — the timed-out entry's holder set and wait queue
equal the originals, and the requester held nothing on the key — and the
requesting transaction remains usable: a second `get_for_update` attempt
succeeds once the key is free. -/
theorem C7_acquire_timeout_clean (t : Txn) (s : DBState) (k : LockKey) (ex : Bool)
    (a : TxnId)
    (ha : t.state = TxnState.Active) (hne : t.id ≠ a)
    (hh : (s.table k).holders = [(a, LockMode.Exclusive)])
    (hq : (s.table k).waitQueue = []) :
    t.getForUpdate s k ex = Except.error DBError.LockTimeout ∧
    (∃ e2, acquireEntry (s.table k) t.id (reqMode ex) 0 = AcquireResult.timeout e2 ∧
      e2.holders = (s.table k).holders ∧ e2.waitQueue = (s.table k).waitQueue) ∧
    heldMode (s.table k).holders t.id = none ∧
    (∀ s2 : DBState, (s2.table k).holders = [] →
      ∃ r, t.getForUpdate s2 k ex = Except.ok r) := by
  refine ⟨gfu_excl_conflict t s k ex a ha hh hne, ?_, ?_, ?_⟩
  · refine ⟨_, acquireEntry_excl_conflict (s.table k) a t.id (reqMode ex) 0 hh hne,
      rfl, ?_⟩
    simp [removeWaiter, enqueueWaiter, hq]
  · rw [hh]
    exact heldMode_single_ne a t.id _ hne
  · intro s2 h2
    exact ⟨_, gfu_free t s2 k ex ha h2⟩

/-- Witness for C7: transaction 2 times out against transaction 1's
exclusive lock on `user1`, then succeeds on the empty table. -/
theorem C7_witness :
    ((beginTxn 2).state = TxnState.Active ∧ (beginTxn 2).id ≠ 1 ∧
      ((lockedState 1 LockMode.Exclusive).table user1).holders = [(1, LockMode.Exclusive)] ∧
      ((lockedState 1 LockMode.Exclusive).table user1).waitQueue = []) ∧
    ((beginTxn 2).getForUpdate (lockedState 1 LockMode.Exclusive) user1 true =
        Except.error DBError.LockTimeout ∧
     (∃ e2, acquireEntry ((lockedState 1 LockMode.Exclusive).table user1) (beginTxn 2).id
        (reqMode true) 0 = AcquireResult.timeout e2 ∧
        e2.holders = ((lockedState 1 LockMode.Exclusive).table user1).holders ∧
        e2.waitQueue = ((lockedState 1 LockMode.Exclusive).table user1).waitQueue) ∧
     heldMode ((lockedState 1 LockMode.Exclusive).table user1).holders (beginTxn 2).id = none ∧
     (∀ s2 : DBState, (s2.table user1).holders = [] →
        ∃ r, (beginTxn 2).getForUpdate s2 user1 true = Except.ok r)) :=
  ⟨⟨rfl, by decide, by simp [lockedState], rfl⟩,
    C7_acquire_timeout_clean (beginTxn 2) (lockedState 1 LockMode.Exclusive) user1 true 1
      rfl (by decide) (by simp [lockedState]) rfl⟩

/-- C8: write-own-reads — a key written by an earlier `put` in a
transaction is visible to a subsequent `get` in that same transaction
(layered over committed storage), while the buffered value stays
invisible to other transactions' `get`s and to engine-level reads until
commit, after which it is the stored value. -/
theorem C8_write_own_reads (t tb : Txn) (s : DBState) (k : LockKey) (v : Value)
    (ha : t.state = TxnState.Active) (hb : tb.state = TxnState.Active)
    (hbuf : tb.buffer = []) (hfree : (s.table k).holders = []) :
    ∃ t2 s2, t.put s k v = Except.ok (t2, s2) ∧
      t2.get s2 k = Except.ok (some v) ∧
      tb.get s2 k = Except.ok (s.storage k) ∧
      dbGet s2 k = s.storage k ∧
      (t2.commit s2 true).2.2.storage k = some v := by
  refine ⟨_, _, put_free t s k v ha hfree, ?_, ?_, ?_, ?_⟩
  · simp [Txn.get, ha, layered, bufferLookup_append_last]
  · simp [Txn.get, hb, hbuf, layered, bufferLookup]
  · simp [dbGet]
  · simp [Txn.commit, ha, releaseAll, applyBuffer_eq, layered, bufferLookup_append_last]

/-- Witness for C8: transaction 1 writes `user1` and reads its own write;
transaction 2 and the engine still see the committed value. -/
theorem C8_witness :
    ((beginTxn 1).state = TxnState.Active ∧ (beginTxn 2).state = TxnState.Active ∧
      (beginTxn 2).buffer = [] ∧ (initState.table user1).holders = []) ∧
    (∃ t2 s2, (beginTxn 1).put initState user1 "mine" = Except.ok (t2, s2) ∧
      t2.get s2 user1 = Except.ok (some "mine") ∧
      (beginTxn 2).get s2 user1 = Except.ok (initState.storage user1) ∧
      dbGet s2 user1 = initState.storage user1 ∧
      (t2.commit s2 true).2.2.storage user1 = some "mine") :=
  ⟨⟨rfl, rfl, rfl, rfl⟩,
    C8_write_own_reads (beginTxn 1) (beginTxn 2) initState user1 "mine" rfl rfl rfl rfl⟩

/-- C9: the holder-set invariant — the holder set is empty, or all holders
are `Shared`, or it is exactly one `Exclusive` holder (so an `Exclusive`
holder is always the sole holder) — is preserved by every acquire
(granted or timed out) and every release. -/
theorem C9_lockEntry_invariant_preserved (e : LockEntry) (tid : TxnId) (mode : LockMode)
    (now : Nat) (h : goodHolders e.holders) :
    (∀ e2, acquireEntry e tid mode now = AcquireResult.granted e2 → goodHolders e2.holders) ∧
    (∀ e2, acquireEntry e tid mode now = AcquireResult.timeout e2 → goodHolders e2.holders) ∧
    goodHolders (releaseEntry e tid).holders ∧
    (∀ a, (a, LockMode.Exclusive) ∈ e.holders → e.holders = [(a, LockMode.Exclusive)]) := by
  refine ⟨?_, ?_, ?_, ?_⟩
  · intro e2 he2
    unfold acquireEntry at he2
    cases hm : heldMode e.holders tid with
    | some held =>
        simp only [hm] at he2
        by_cases hsuf : modeSufficient held mode = true
        · rw [if_pos hsuf] at he2
          injection he2 with h3
          rw [← h3]
          exact h
        · rw [if_neg hsuf] at he2
          by_cases hlen : (e.holders.length == 1) = true
          · rw [if_pos hlen] at he2
            injection he2 with h3
            rw [← h3]
            exact goodHolders_single tid LockMode.Exclusive
          · rw [if_neg hlen] at he2
            simp at he2
    | none =>
        simp only [hm] at he2
        by_cases hc : compatible e.holders mode = true
        · rw [if_pos hc] at he2
          injection he2 with h3
          rw [← h3]
          exact goodHolders_append e.holders tid mode hc h
        · rw [if_neg hc] at he2
          simp at he2
  · intro e2 he2
    unfold acquireEntry at he2
    cases hm : heldMode e.holders tid with
    | some held =>
        simp only [hm] at he2
        by_cases hsuf : modeSufficient held mode = true
        · rw [if_pos hsuf] at he2
          simp at he2
        · rw [if_neg hsuf] at he2
          by_cases hlen : (e.holders.length == 1) = true
          · rw [if_pos hlen] at he2
            simp at he2
          · rw [if_neg hlen] at he2
            injection he2 with h3
            rw [← h3]
            exact h
    | none =>
        simp only [hm] at he2
        by_cases hc : compatible e.holders mode = true
        · rw [if_pos hc] at he2
          simp at he2
        · rw [if_neg hc] at he2
          injection he2 with h3
          rw [← h3]
          exact h
  · exact promote_good e.waitQueue (e.holders.filter (fun h2 => !(h2.1 == tid)))
      (goodHolders_filter e.holders tid h)
  · intro a hmem
    rcases h with h0 | hsh | ⟨b, hb2⟩
    · rw [h0] at hmem
      simp at hmem
    · have h4 := hsh (a, LockMode.Exclusive) hmem
      simp at h4
    · rw [hb2] at hmem
      simp at hmem
      simp [hb2, hmem]

/-- Witness for C9: a single `Shared` holder, transaction 2 acquiring
`Shared`. -/
theorem C9_witness :
    goodHolders ((⟨[(1, LockMode.Shared)], []⟩ : LockEntry).holders) ∧
    ((∀ e2, acquireEntry ⟨[(1, LockMode.Shared)], []⟩ 2 LockMode.Shared 0 =
        AcquireResult.granted e2 → goodHolders e2.holders) ∧
     (∀ e2, acquireEntry ⟨[(1, LockMode.Shared)], []⟩ 2 LockMode.Shared 0 =
        AcquireResult.timeout e2 → goodHolders e2.holders) ∧
     goodHolders (releaseEntry ⟨[(1, LockMode.Shared)], []⟩ 2).holders ∧
     (∀ a, (a, LockMode.Exclusive) ∈ (⟨[(1, LockMode.Shared)], []⟩ : LockEntry).holders →
        (⟨[(1, LockMode.Shared)], []⟩ : LockEntry).holders = [(a, LockMode.Exclusive)])) :=
  ⟨goodHolders_single 1 LockMode.Shared,
    C9_lockEntry_invariant_preserved ⟨[(1, LockMode.Shared)], []⟩ 2 LockMode.Shared 0
      (goodHolders_single 1 LockMode.Shared)⟩

/-- C10: every lock conflict at the public interface — `put` against an
`Exclusive` holder, `put` against a `Shared` holder, `get_for_update`
(either mode) against an `Exclusive` holder — yields a `LockTimeout`
whose display string is exactly
"Operation timed out: Timeout waiting to lock key". -/
theorem C10_lock_timeout_message_uniform (t : Txn) (s sh : DBState) (k : LockKey)
    (v : Value) (a : TxnId)
    (ha : t.state = TxnState.Active) (hne : t.id ≠ a)
    (hx : (s.table k).holders = [(a, LockMode.Exclusive)])
    (hsh2 : (sh.table k).holders = [(a, LockMode.Shared)]) :
    errorMessage (t.put s k v) = some "Operation timed out: Timeout waiting to lock key" ∧
    errorMessage (t.getForUpdate s k true) =
      some "Operation timed out: Timeout waiting to lock key" ∧
    errorMessage (t.getForUpdate s k false) =
      some "Operation timed out: Timeout waiting to lock key" ∧
    errorMessage (t.put sh k v) = some "Operation timed out: Timeout waiting to lock key" := by
  rw [put_excl_conflict t s k v a ha hx hne, gfu_excl_conflict t s k true a ha hx hne,
    gfu_excl_conflict t s k false a ha hx hne, put_shared_conflict t sh k v a ha hsh2 hne]
  exact ⟨rfl, rfl, rfl, rfl⟩

/-- Witness for C10: transaction 2 conflicts with transaction 1's
exclusive (resp. shared) lock on `user1`; every error renders the same
message. -/
theorem C10_witness :
    ((beginTxn 2).state = TxnState.Active ∧ (beginTxn 2).id ≠ 1 ∧
      ((lockedState 1 LockMode.Exclusive).table user1).holders = [(1, LockMode.Exclusive)] ∧
      ((lockedState 1 LockMode.Shared).table user1).holders = [(1, LockMode.Shared)]) ∧
    (errorMessage ((beginTxn 2).put (lockedState 1 LockMode.Exclusive) user1 "v") =
        some "Operation timed out: Timeout waiting to lock key" ∧
     errorMessage ((beginTxn 2).getForUpdate (lockedState 1 LockMode.Exclusive) user1 true) =
        some "Operation timed out: Timeout waiting to lock key" ∧
     errorMessage ((beginTxn 2).getForUpdate (lockedState 1 LockMode.Exclusive) user1 false) =
        some "Operation timed out: Timeout waiting to lock key" ∧
     errorMessage ((beginTxn 2).put (lockedState 1 LockMode.Shared) user1 "v") =
        some "Operation timed out: Timeout waiting to lock key") :=
  ⟨⟨rfl, by decide, by simp [lockedState, beginTxn], by simp [lockedState, beginTxn]⟩,
    C10_lock_timeout_message_uniform (beginTxn 2) (lockedState 1 LockMode.Exclusive)
      (lockedState 1 LockMode.Shared) user1 "v" 1 rfl (by decide)
      (by simp [lockedState, beginTxn]) (by simp [lockedState, beginTxn])⟩
